import Mathlib

/-!
Verification development for the coach_sportif backend.

The definitions below are a shallow embedding of the Python sources:
`backend/exercise_engine.py` (exercise state machine, acceptance gate,
fatigue detection, threshold overrides, exercise-name mapping),
`backend/calibration.py` (calibration sampling loop and terminal decision)
and the freshness-gated consumer of `backend/main.py` /
`backend/pose_detector.py`.

Real-valued quantities (times, angles, visibilities) are modelled as
rationals; the Python comparisons and arithmetic on them are translated
verbatim.  Where the code calls `time.time()` a timestamp argument is
threaded explicitly.
-/

namespace CoachSportif

/-- `ExerciseType` enum from `exercise_engine.py`. -/
inductive ExerciseType where
  | squat | pushup | plank | bicep_curl | lunge | tricep_dip
  | shoulder_press | row | crunch | deadlift | unknown
deriving DecidableEq

/-- `ExercisePhase` enum from `exercise_engine.py`. -/
inductive ExercisePhase where
  | idle | down | up | hold | transition
deriving DecidableEq

/-- The named numeric fields of the `ExerciseThresholds` dataclass. -/
inductive ThresholdField where
  | squat_knee_down | squat_knee_up | squat_tolerance
  | pushup_elbow_down | pushup_elbow_up | pushup_hip_angle
  | plank_hip_min | plank_hip_max | plank_hold_time
  | curl_elbow_down | curl_elbow_up
  | dip_elbow_down | dip_elbow_up
  | press_elbow_down | press_elbow_up
  | row_elbow_pull | row_elbow_extend
  | crunch_hip_up | crunch_hip_down
  | deadlift_hip_down | deadlift_hip_up
  | min_rep_duration | min_visibility_threshold | min_form_quality_threshold
deriving DecidableEq

/-- An `ExerciseThresholds` value: an assignment to each named field. -/
abbrev Thresholds : Type := ThresholdField → ℚ

/-- Default values of the `ExerciseThresholds` dataclass. -/
def defaultThresholds : Thresholds
  | .squat_knee_down => 80
  | .squat_knee_up => 165
  | .squat_tolerance => 10
  | .pushup_elbow_down => 75
  | .pushup_elbow_up => 165
  | .pushup_hip_angle => 175
  | .plank_hip_min => 170
  | .plank_hip_max => 185
  | .plank_hold_time => 3/2
  | .curl_elbow_down => 165
  | .curl_elbow_up => 40
  | .dip_elbow_down => 90
  | .dip_elbow_up => 160
  | .press_elbow_down => 60
  | .press_elbow_up => 160
  | .row_elbow_pull => 80
  | .row_elbow_extend => 160
  | .crunch_hip_up => 100
  | .crunch_hip_down => 150
  | .deadlift_hip_down => 100
  | .deadlift_hip_up => 160
  | .min_rep_duration => 4/5
  | .min_visibility_threshold => 1/2
  | .min_form_quality_threshold => 3/5

/-- The Python attribute name of each threshold field (for `hasattr`/`setattr`). -/
def fieldName : ThresholdField → String
  | .squat_knee_down => "squat_knee_down"
  | .squat_knee_up => "squat_knee_up"
  | .squat_tolerance => "squat_tolerance"
  | .pushup_elbow_down => "pushup_elbow_down"
  | .pushup_elbow_up => "pushup_elbow_up"
  | .pushup_hip_angle => "pushup_hip_angle"
  | .plank_hip_min => "plank_hip_min"
  | .plank_hip_max => "plank_hip_max"
  | .plank_hold_time => "plank_hold_time"
  | .curl_elbow_down => "curl_elbow_down"
  | .curl_elbow_up => "curl_elbow_up"
  | .dip_elbow_down => "dip_elbow_down"
  | .dip_elbow_up => "dip_elbow_up"
  | .press_elbow_down => "press_elbow_down"
  | .press_elbow_up => "press_elbow_up"
  | .row_elbow_pull => "row_elbow_pull"
  | .row_elbow_extend => "row_elbow_extend"
  | .crunch_hip_up => "crunch_hip_up"
  | .crunch_hip_down => "crunch_hip_down"
  | .deadlift_hip_down => "deadlift_hip_down"
  | .deadlift_hip_up => "deadlift_hip_up"
  | .min_rep_duration => "min_rep_duration"
  | .min_visibility_threshold => "min_visibility_threshold"
  | .min_form_quality_threshold => "min_form_quality_threshold"

/-- All dataclass fields of `ExerciseThresholds` (its instance attributes;
`hasattr` is additionally true of inherited attributes such as
`__init__`, which `pyAttrKind` classifies separately). -/
def allThresholdFields : List ThresholdField :=
  [.squat_knee_down, .squat_knee_up, .squat_tolerance,
   .pushup_elbow_down, .pushup_elbow_up, .pushup_hip_angle,
   .plank_hip_min, .plank_hip_max, .plank_hold_time,
   .curl_elbow_down, .curl_elbow_up,
   .dip_elbow_down, .dip_elbow_up,
   .press_elbow_down, .press_elbow_up,
   .row_elbow_pull, .row_elbow_extend,
   .crunch_hip_up, .crunch_hip_down,
   .deadlift_hip_down, .deadlift_hip_up,
   .min_rep_duration, .min_visibility_threshold, .min_form_quality_threshold]

/-- Look up a dataclass field of the thresholds object by attribute name
(the instance-attribute part of `hasattr(self.thresholds, name)`). -/
def findThresholdField (s : String) : Option ThresholdField :=
  allThresholdFields.find? (fun f => fieldName f = s)

/-- `setattr(self.thresholds, f, v)` for a known field `f`. -/
def setThreshold (t : Thresholds) (f : ThresholdField) (v : ℚ) : Thresholds :=
  fun g => if g = f then v else t g

/-- A dictionary of joint angles (`angles` in the Python code). -/
abbrev Angles : Type := List (String × ℚ)

/-- `angles.get(name, default)`. -/
def getA (angles : Angles) (name : String) (default : ℚ) : ℚ :=
  match angles with
  | [] => default
  | (k, v) :: rest => if k = name then v else getA rest name default

/-- `ExerciseEngine._detect_phase`, translated case by case. -/
def detectPhase (t : Thresholds) (angles : Angles) (exercise : ExerciseType) :
    ExercisePhase :=
  match exercise with
  | .squat =>
    let knee := min (getA angles ("left_knee") 180) (getA angles ("right_knee") 180)
    if knee < t .squat_knee_down + t .squat_tolerance then .down
    else if knee > t .squat_knee_up - t .squat_tolerance then .up
    else .transition
  | .pushup =>
    let elbow := min (getA angles ("left_elbow") 180) (getA angles ("right_elbow") 180)
    if elbow < t .pushup_elbow_down + t .squat_tolerance then .down
    else if elbow > t .pushup_elbow_up - t .squat_tolerance then .up
    else .transition
  | .plank =>
    let hip := (getA angles ("left_hip") 180 + getA angles ("right_hip") 180) / 2
    if t .plank_hip_min < hip ∧ hip < t .plank_hip_max then .hold
    else .idle
  | .bicep_curl =>
    let elbow := min (getA angles ("left_elbow") 180) (getA angles ("right_elbow") 180)
    if elbow < t .curl_elbow_up + 20 then .up
    else if elbow > t .curl_elbow_down - 20 then .down
    else .transition
  | .tricep_dip =>
    let elbow := min (getA angles ("left_elbow") 180) (getA angles ("right_elbow") 180)
    if elbow < t .dip_elbow_down + 10 then .down
    else if elbow > t .dip_elbow_up - 10 then .up
    else .transition
  | .shoulder_press =>
    let elbow := min (getA angles ("left_elbow") 180) (getA angles ("right_elbow") 180)
    if elbow < t .press_elbow_down + 10 then .down
    else if elbow > t .press_elbow_up - 10 then .up
    else .transition
  | .row =>
    let elbow := min (getA angles ("left_elbow") 180) (getA angles ("right_elbow") 180)
    if elbow < t .row_elbow_pull + 10 then .up
    else if elbow > t .row_elbow_extend - 10 then .down
    else .transition
  | .crunch =>
    let hip := (getA angles ("left_hip") 180 + getA angles ("right_hip") 180) / 2
    if hip < t .crunch_hip_up then .up
    else if hip > t .crunch_hip_down then .down
    else .transition
  | .deadlift =>
    let hip := (getA angles ("left_hip") 180 + getA angles ("right_hip") 180) / 2
    if hip < t .deadlift_hip_down + 10 then .down
    else if hip > t .deadlift_hip_up - 10 then .up
    else .transition
  | _ => .idle

/-- `ExerciseEngine._check_form`, translated case by case. -/
def checkForm (angles : Angles) (exercise : ExerciseType) : List String :=
  match exercise with
  | .squat =>
    let lk := getA angles ("left_knee") 180
    let rk := getA angles ("right_knee") 180
    let i1 : List String :=
      if (lk < 140 ∨ rk < 140) ∧ |lk - rk| > 30 then [("squat_knee_uneven")] else []
    let torso := getA angles ("torso_angle") 0
    i1 ++ (if torso > 45 then [("squat_back_round")] else [])
  | .pushup =>
    let hip := (getA angles ("left_hip") 180 + getA angles ("right_hip") 180) / 2
    if hip < 160 then [("pushup_hips_high")]
    else if hip > 190 then [("pushup_hips_low")] else []
  | .plank =>
    let hip := (getA angles ("left_hip") 180 + getA angles ("right_hip") 180) / 2
    if hip < 155 then [("plank_hips_high")]
    else if hip > 185 then [("plank_hips_low")] else []
  | .bicep_curl =>
    let shoulder := (getA angles ("left_shoulder") 90 + getA angles ("right_shoulder") 90) / 2
    if shoulder > 60 then [("curl_swing")] else []
  | .lunge =>
    let lk := getA angles ("left_knee") 180
    let rk := getA angles ("right_knee") 180
    let i1 : List String := if min lk rk > 130 then [("lunge_depth")] else []
    let torso := getA angles ("torso_angle") 0
    i1 ++ (if torso > 20 then [("lunge_torso_lean")] else [])
  | .tricep_dip =>
    let le := getA angles ("left_elbow") 180
    let re := getA angles ("right_elbow") 180
    if |le - re| > 20 then [("dip_uneven")] else []
  | .shoulder_press =>
    let torso := getA angles ("torso_angle") 0
    if torso > 20 then [("press_arch_back")] else []
  | .row =>
    let torso := getA angles ("torso_angle") 0
    if torso < 30 then [("row_back_round")] else []
  | .crunch =>
    let torso := getA angles ("torso_angle") 0
    let i1 : List String := if torso > 180 then [("crunch_neck_strain")] else []
    let knee := (getA angles ("left_knee") 180 + getA angles ("right_knee") 180) / 2
    i1 ++ (if knee < 90 then [("crunch_legs_moving")] else [])
  | .deadlift =>
    let torso := getA angles ("torso_angle") 0
    if torso > 45 then [("deadlift_back_round")] else []
  | _ => []

/-- `ExerciseEngine._rule_based_classification`. -/
def ruleBasedClassification (angles : Angles) : ExerciseType × ℚ :=
  let knee := (getA angles ("left_knee") 180 + getA angles ("right_knee") 180) / 2
  let elbow := (getA angles ("left_elbow") 180 + getA angles ("right_elbow") 180) / 2
  let hip := (getA angles ("left_hip") 180 + getA angles ("right_hip") 180) / 2
  let torso := getA angles ("torso_angle") 0
  if torso > 60 ∧ hip > 150 ∧ elbow > 150 then (.plank, 7/10)
  else if torso > 45 ∧ elbow < 150 then (.pushup, 7/10)
  else if torso < 30 ∧ knee < 140 then (.squat, 7/10)
  else if torso < 15 ∧ elbow < 120 ∧ knee > 150 then (.bicep_curl, 3/5)
  else
    let lk := getA angles ("left_knee") 180
    let rk := getA angles ("right_knee") 180
    if |lk - rk| > 30 ∧ min lk rk < 120 then (.lunge, 3/5)
    else (.unknown, 0)

/-- The mutable fields of the `ExerciseState` dataclass. -/
structure EngineState where
  current_type : ExerciseType
  current_phase : ExercisePhase
  rep_count : ℕ
  set_count : ℕ
  feedback_codes : List String
  ml_label : Option String
  ml_confidence : ℚ
  total_reps : ℕ
  rep_times : List ℚ
  last_rep_time : ℚ
  avg_rep_time : ℚ
  form_quality : ℚ
  form_issues : List String
  visibility : ℚ
  min_quality_in_rep : ℚ
  min_visibility_in_rep : ℚ
  rep_start_time : ℚ

/-- Default `ExerciseState()` values. -/
def initState : EngineState where
  current_type := .unknown
  current_phase := .idle
  rep_count := 0
  set_count := 0
  feedback_codes := []
  ml_label := none
  ml_confidence := 0
  total_reps := 0
  rep_times := []
  last_rep_time := 0
  avg_rep_time := 0
  form_quality := 1
  form_issues := []
  visibility := 1
  min_quality_in_rep := 1
  min_visibility_in_rep := 1
  rep_start_time := 0

/-- An `ExerciseEngine` object: its `ExerciseState` plus the engine-level
mutable attributes (`thresholds`, `_prev_phase`, `_rep_progress_flag`,
`_phase_start_time`, `confidence`). -/
structure Engine where
  state : EngineState
  thresholds : Thresholds
  prev_phase : ExercisePhase
  rep_progress_flag : Bool
  phase_start_time : ℚ
  confidence : ℚ

/-- A fresh `ExerciseEngine` created at (model) time `t0`. -/
def initEngine (t0 : ℚ) : Engine where
  state := initState
  thresholds := defaultThresholds
  prev_phase := .idle
  rep_progress_flag := false
  phase_start_time := t0
  confidence := 0

/-- The exercises of "GROUP 1" in `_is_rep_complete` (start edge `down`). -/
def groupA : List ExerciseType := [.squat, .pushup, .tricep_dip, .shoulder_press]

/-- The exercises of "GROUP 2" in `_is_rep_complete` (start edge `up`). -/
def groupB : List ExerciseType := [.bicep_curl, .row, .crunch, .deadlift]

/-- The "Enforce Strict Rules" tail of `_is_rep_complete`, run once
`rep_just_finished` is set: clear the progress flag, then apply the
duration / visibility / quality checks in order. -/
def applyGate (e : Engine) (now2 : ℚ) : Engine × Bool × Option String :=
  let e := { e with rep_progress_flag := false }
  let duration := now2 - e.state.rep_start_time
  if duration < e.thresholds .min_rep_duration then
    (e, false, some ("too_fast"))
  else if e.state.min_visibility_in_rep < e.thresholds .min_visibility_threshold then
    (e, false, some ("low_visibility"))
  else if e.state.min_quality_in_rep < e.thresholds .min_form_quality_threshold then
    (e, false, some ("poor_form"))
  else (e, true, none)

/-- The rep-edge tracking of `_is_rep_complete`: latch the progress flag
on the start edge (recording `rep_start_time` when the latch was clear)
and report `rep_just_finished` on the completion edge. -/
def repEdge (e : Engine) (new_phase : ExercisePhase) (now2 : ℚ) : Engine × Bool :=
  if e.state.current_type ∈ groupA then
    if new_phase = .down then
      (if ¬ e.rep_progress_flag then
        { e with state := { e.state with rep_start_time := now2 },
                 rep_progress_flag := true }
       else { e with rep_progress_flag := true }, false)
    else if new_phase = .up ∧ e.rep_progress_flag then (e, true)
    else (e, false)
  else if e.state.current_type ∈ groupB then
    if new_phase = .up then
      (if ¬ e.rep_progress_flag then
        { e with state := { e.state with rep_start_time := now2 },
                 rep_progress_flag := true }
       else { e with rep_progress_flag := true }, false)
    else if new_phase = .down ∧ e.rep_progress_flag then (e, true)
    else (e, false)
  else if e.state.current_type = .plank then
    if e.prev_phase = .hold ∧ new_phase ≠ .hold then
      (e, decide (now2 - e.phase_start_time > e.thresholds .plank_hold_time))
    else (e, false)
  else (e, false)

/-- `ExerciseEngine._is_rep_complete`.  `now2` is the value of the
`time.time()` call made inside the method.  Returns the updated engine
(the method mutates `_rep_progress_flag` and `rep_start_time`), the
completion flag and the optional rejection reason. -/
def isRepComplete (e : Engine) (new_phase : ExercisePhase) (now2 : ℚ) :
    Engine × Bool × Option String :=
  if (repEdge e new_phase now2).2 then applyGate (repEdge e new_phase now2).1 now2
  else ((repEdge e new_phase now2).1, false, none)

/-- The events the engine appends to the `events` list during `update`.
The classifier-produced labels never enter this list, so it is a faithful
image of the `events` value returned by `update`. -/
inductive Event where
  | repComplete (count : ℕ) (total_count : ℕ) (rep_time : ℚ) (quality : ℚ)
  | repRejected (reason : String)
  | formWarning (issues : List String)
deriving DecidableEq

/-- Python's `round(x, 2)`, modelled as floor-based half-up rounding to two
decimals.  (Python rounds half-to-even; the two agree except at exact
half-cent values, which no claim here exercises.) -/
def round2 (q : ℚ) : ℚ := (⌊q * 100 + 1/2⌋ : ℚ) / 100

/-- Step 1 of `update`: classify the exercise if not specified, else take
the caller-supplied exercise with confidence 1. -/
def classifyStep (e : Engine) (angles : Angles) (exercise_type : Option ExerciseType) :
    Engine :=
  match exercise_type with
  | none =>
    let det := ruleBasedClassification angles
    if det.1 ≠ .unknown then
      { e with state := { e.state with current_type := det.1 }, confidence := det.2 }
    else e
  | some ty =>
    { e with state := { e.state with current_type := ty }, confidence := 1 }

/-- Step 2 of `update`: track the minimum quality and visibility during the
rep cycle; outside a rep cycle keep the trackers at the current values and
reset `rep_start_time` to the current time. -/
def trackMinStep (e : Engine) (now : ℚ) : Engine :=
  if e.rep_progress_flag then
    { e with state := { e.state with
        min_quality_in_rep := min e.state.min_quality_in_rep e.state.form_quality,
        min_visibility_in_rep := min e.state.min_visibility_in_rep e.state.visibility } }
  else
    { e with state := { e.state with
        min_quality_in_rep := e.state.form_quality,
        min_visibility_in_rep := e.state.visibility,
        rep_start_time := now } }

/-- Step 3 of `update`: call `_is_rep_complete` and either record the
accepted rep (counters, rolling history, rolling average, `rep_complete`
event) or emit the `rep_rejected` event. -/
def repStep (e : Engine) (new_phase : ExercisePhase) (now now2 : ℚ) :
    Engine × List Event :=
  let rc := isRepComplete e new_phase now2
  let e := rc.1
  if rc.2.1 then
    let rep_time := now - e.state.last_rep_time
    let trimmed := if 5 ≤ e.state.rep_times.length then e.state.rep_times.tail
                   else e.state.rep_times
    let rep_times := trimmed ++ [rep_time]
    let st := { e.state with
      rep_count := e.state.rep_count + 1,
      total_reps := e.state.total_reps + 1,
      last_rep_time := now,
      rep_times := rep_times,
      avg_rep_time := rep_times.sum / (rep_times.length : ℚ) }
    ({ e with state := st },
     [Event.repComplete st.rep_count st.total_reps (round2 rep_time)
        (round2 st.min_quality_in_rep)])
  else
    match rc.2.2 with
    | some r => (e, [Event.repRejected r])
    | none => (e, [])

/-- Step 4 of `update`: form check, issue list and quality score
(`max(0, 1 - 0.2 * len(issues))`), plus the `form_warning` event. -/
def formStep (e : Engine) (angles : Angles) : Engine × List Event :=
  let issues := checkForm angles e.state.current_type
  ({ e with state := { e.state with
      form_issues := issues,
      form_quality := max 0 (1 - (issues.length : ℚ) / 5) } },
   if issues ≠ [] then [Event.formWarning issues] else [])

/-- Step 5 of `update`: phase bookkeeping (`_phase_start_time` on a phase
change, then `_prev_phase` and `current_phase`). -/
def phaseStep (e : Engine) (new_phase : ExercisePhase) (now : ℚ) : Engine :=
  let e := if new_phase ≠ e.prev_phase then { e with phase_start_time := now } else e
  { e with prev_phase := new_phase,
           state := { e.state with current_phase := new_phase } }

/-- `ExerciseEngine.update`.  `angles`, `exercise_type` and `visibility`
are the call arguments; `now` is `update`'s `current_time` and `now2` the
`time.time()` value observed inside `_is_rep_complete` (`now ≤ now2` in any
real execution).  The ML classifier branches are modelled in their
classifier-absent behaviour (they return `None` and touch none of the
fields below); keypoints are therefore not needed. -/
def updateEngine (e : Engine) (angles : Angles)
    (exercise_type : Option ExerciseType) (visibility : ℚ) (now now2 : ℚ) :
    Engine × List Event :=
  let e := { e with state := { e.state with visibility := visibility } }
  let e := classifyStep e angles exercise_type
  let new_phase := detectPhase e.thresholds angles e.state.current_type
  let e := trackMinStep e now
  let re := repStep e new_phase now now2
  let fe := formStep re.1 angles
  (phaseStep fe.1 new_phase now, re.2 ++ fe.2)

/-- `ExerciseEngine.new_set`. -/
def newSet (e : Engine) : Engine :=
  { e with state := { e.state with
      set_count := e.state.set_count + 1,
      rep_count := 0,
      rep_times := [] } }

/-- `ExerciseEngine.detect_fatigue`, as a function of
`self.state.rep_times`. -/
def detectFatigue (rep_times : List ℚ) : Bool × ℚ :=
  if rep_times.length < 3 then (false, 0)
  else
    let initial_avg := (rep_times.take 2).sum / 2
    let recent_avg := (rep_times.drop (rep_times.length - 2)).sum / 2
    if initial_avg > 0 then
      let slowdown := (recent_avg - initial_avg) / initial_avg * 100
      (decide (slowdown > 20), max 0 slowdown)
    else (false, 0)

/-- The `key_mapping` table of `apply_custom_thresholds`, with the
`.get(key, [key])` fallback. -/
def keyMappingList (key : String) : List String :=
  if key = "squat_knee_angle" then [("squat_knee_down")]
  else if key = "pushup_elbow_angle" then [("pushup_elbow_down")]
  else if key = "plank_hip_angle" then [("plank_hip_min"), ("plank_hip_max")]
  else if key = "bicep_curl_angle" then [("curl_elbow_up")]
  else if key = "squat_tolerance" then [("squat_tolerance")]
  else [key]

/-- How `hasattr`/`setattr` treat an attribute name that is not one of the
24 dataclass fields: `absent` (`hasattr` false — the only case that gets
the "not recognized" warning), `shadowable` (`hasattr` true through an
inherited attribute such as `__init__` or `__repr__`; `setattr` silently
stores the float in the instance dict) or `readonly` (`hasattr` true
through a read-only descriptor such as `__class__`, `__dict__` or
`__weakref__`; assigning a float raises `TypeError`). -/
inductive PyAttr where
  | absent | shadowable | readonly
deriving DecidableEq

/-- The concrete attribute surface of an `ExerciseThresholds` dataclass
instance beyond its fields, for the CPython object model: the read-only
descriptors, then the inherited/generated attributes that an instance
`setattr` silently shadows.  The theorems below depend only on the
classification of the names they mention; the general theorem is
parametric in the classification. -/
def pyAttrKind (s : String) : PyAttr :=
  if s = "__class__" ∨ s = "__dict__" ∨ s = "__weakref__" then .readonly
  else if s = "__init__" ∨ s = "__repr__" ∨ s = "__eq__" ∨ s = "__ne__" ∨
      s = "__lt__" ∨ s = "__le__" ∨ s = "__gt__" ∨ s = "__ge__" ∨
      s = "__hash__" ∨ s = "__str__" ∨ s = "__format__" ∨ s = "__doc__" ∨
      s = "__module__" ∨ s = "__annotations__" ∨ s = "__dataclass_fields__" ∨
      s = "__dataclass_params__" ∨ s = "__match_args__" ∨ s = "__new__" ∨
      s = "__init_subclass__" ∨ s = "__subclasshook__" ∨ s = "__reduce__" ∨
      s = "__reduce_ex__" ∨ s = "__sizeof__" ∨ s = "__dir__" ∨
      s = "__getattribute__" ∨ s = "__setattr__" ∨ s = "__delattr__" then .shadowable
  else .absent

/-- A live `ExerciseThresholds` object: its 24 dataclass fields plus the
instance-dict entries created when a stray `setattr` shadows an inherited
attribute with a float. -/
structure ThresholdsObj where
  fields : Thresholds
  shadow : List (String × ℚ)

/-- Store an instance attribute in the instance dict (replace or insert). -/
def setShadow (d : List (String × ℚ)) (k : String) (v : ℚ) : List (String × ℚ) :=
  match d with
  | [] => [(k, v)]
  | (k2, v2) :: rest => if k2 = k then (k, v) :: rest else (k2, v2) :: setShadow rest k v

/-- The running outcome of `apply_custom_thresholds`: the mutated object,
the "not recognized" warnings so far, and — once a read-only attribute was
assigned — the mapped key whose `setattr` raised `TypeError` (after which
the Python loop is aborted; the model keeps folding but changes nothing
further, which leaves the state at raise time intact). -/
structure ApplyOutcome where
  obj : ThresholdsObj
  warns : List (String × String)
  error : Option String

/-- One `if hasattr(...): setattr(...) else: warn` step of
`apply_custom_thresholds`, for the mapped key `mk` of override `key`. -/
def applyAttr (ak : String → PyAttr) (key : String) (v : ℚ)
    (a : ApplyOutcome) (mk : String) : ApplyOutcome :=
  match a.error with
  | some _ => a
  | none =>
    match findThresholdField mk with
    | some f => { a with obj := { a.obj with fields := setThreshold a.obj.fields f v } }
    | none =>
      match ak mk with
      | .shadowable => { a with obj := { a.obj with shadow := setShadow a.obj.shadow mk v } }
      | .readonly => { a with error := some mk }
      | .absent => { a with warns := a.warns ++ [(key, mk)] }

/-- The body of the `for key, value in thresholds.items()` loop of
`apply_custom_thresholds`: map the key, then apply each mapped key. -/
def applyKeyObj (ak : String → PyAttr) (kv : String × ℚ) (acc : ApplyOutcome) :
    ApplyOutcome :=
  (keyMappingList kv.1).foldl (applyAttr ak kv.1 kv.2) acc

/-- `ExerciseEngine.apply_custom_thresholds`, parametric in the
classification `ak` of non-field attribute names (`pyAttrKind` is the
CPython one).  The override dictionary is modelled as an association list
in insertion order. -/
def applyCustomThresholdsObj (ak : String → PyAttr) (overrides : List (String × ℚ))
    (t : ThresholdsObj) : ApplyOutcome :=
  overrides.foldl (fun acc kv => applyKeyObj ak kv acc) ⟨t, [], none⟩

/-! ### Exercise-name mapping (`map_exercise_name`) -/

/-- Python `str.lower()` on one character.  Folds the ASCII range and the
Latin-1 supplement uppercase letters (U+00C0–U+00DE except the
multiplication sign), which covers every character occurring in the alias
vocabulary or a case variant of it (in particular `É` → `é` for
`"soulevé"`); Python additionally folds the remaining Unicode blocks, on
which no recognised name depends. -/
def pyLower (c : Char) : Char :=
  if (65 ≤ c.toNat ∧ c.toNat ≤ 90) ∨
      (192 ≤ c.toNat ∧ c.toNat ≤ 222 ∧ c.toNat ≠ 215) then
    Char.ofNat (c.toNat + 32)
  else c

/-- The characters Python `str.strip()` removes: the CPython `str.isspace`
set (ASCII whitespace including vertical tab and form feed, the C1 field
separators, NEL, NBSP, and the Unicode space/line/paragraph separators). -/
def isPySpace (c : Char) : Bool :=
  decide (c.toNat = 32 ∨ (9 ≤ c.toNat ∧ c.toNat ≤ 13) ∨
    (28 ≤ c.toNat ∧ c.toNat ≤ 31) ∨ c.toNat = 133 ∨ c.toNat = 160 ∨
    c.toNat = 5760 ∨ (8192 ≤ c.toNat ∧ c.toNat ≤ 8202) ∨ c.toNat = 8232 ∨
    c.toNat = 8233 ∨ c.toNat = 8239 ∨ c.toNat = 8287 ∨ c.toNat = 12288)

/-- Python `str.strip()` on the name, modelled on character lists. -/
def stripChars (l : List Char) : List Char :=
  ((l.dropWhile isPySpace).reverse.dropWhile isPySpace).reverse

/-- `name_clean.replace("-", "_")`. -/
def underscoreChars (l : List Char) : List Char :=
  l.map (fun c => if c = '-' then '_' else c)

/-- `name_clean.replace("_", "-")` (the retry in `map_exercise_name`). -/
def hyphenChars (l : List Char) : List Char :=
  l.map (fun c => if c = '_' then '-' else c)

/-- `name.lower().strip().replace("-", "_")`: the normalisation applied by
`map_exercise_name` before any lookup. -/
def normalizeName (l : List Char) : List Char :=
  underscoreChars (stripChars (l.map pyLower))

/-- `ExerciseType(name_clean)`: the direct enum-value match (raising
`ValueError`, i.e. `none`, when the string is not an enum value). -/
def enumOfString (n : List Char) : Option ExerciseType :=
  if n = ("squat").toList then some .squat
  else if n = ("pushup").toList then some .pushup
  else if n = ("plank").toList then some .plank
  else if n = ("bicep_curl").toList then some .bicep_curl
  else if n = ("lunge").toList then some .lunge
  else if n = ("tricep_dip").toList then some .tricep_dip
  else if n = ("shoulder_press").toList then some .shoulder_press
  else if n = ("row").toList then some .row
  else if n = ("crunch").toList then some .crunch
  else if n = ("deadlift").toList then some .deadlift
  else if n = ("unknown").toList then some .unknown
  else none

/-- The string-keyed part of `_map_prediction_to_exercise`'s alias table
(the integer keys can never match a string input, and the duplicate keys of
the Python dict literal all map to the same values). -/
def aliasLookup (n : List Char) : ExerciseType :=
  if n = ("squat").toList then .squat
  else if n = ("pushup").toList then .pushup
  else if n = ("pompe").toList then .pushup
  else if n = ("plank").toList then .plank
  else if n = ("planche").toList then .plank
  else if n = ("bicep").toList then .bicep_curl
  else if n = ("curl").toList then .bicep_curl
  else if n = ("lunge").toList then .lunge
  else if n = ("fente").toList then .lunge
  else if n = ("tricep_dip").toList then .tricep_dip
  else if n = ("tricep-dips").toList then .tricep_dip
  else if n = ("tricep_dips").toList then .tricep_dip
  else if n = ("dips").toList then .tricep_dip
  else if n = ("shoulder_press").toList then .shoulder_press
  else if n = ("shoulder-press").toList then .shoulder_press
  else if n = ("press").toList then .shoulder_press
  else if n = ("militaire").toList then .shoulder_press
  else if n = ("row").toList then .row
  else if n = ("rows").toList then .row
  else if n = ("rowing").toList then .row
  else if n = ("crunch").toList then .crunch
  else if n = ("crunches").toList then .crunch
  else if n = ("abs").toList then .crunch
  else if n = ("abdominaux").toList then .crunch
  else if n = ("deadlift").toList then .deadlift
  else if n = ("souleve").toList then .deadlift
  else if n = ("situp").toList then .crunch
  else if n = ("abdos").toList then .crunch
  else if n = ("soulevé").toList then .deadlift
  else .unknown

/-- The lookup cascade of `map_exercise_name` after normalisation. -/
def mapExerciseNameCore (n : List Char) : ExerciseType :=
  match enumOfString n with
  | some t => t
  | none =>
    let r := aliasLookup n
    if r = .unknown ∧ '_' ∈ n then aliasLookup (hyphenChars n) else r

/-- `map_exercise_name` from `exercise_engine.py`.  Total by construction:
the Python function catches the only exception its body can raise. -/
def mapExerciseName (s : List Char) : ExerciseType :=
  if s = [] then .unknown else mapExerciseNameCore (normalizeName s)

/-! ### Calibration (`calibration.py`) -/

/-- A keypoint as used by the calibrator: normalised position plus
visibility. -/
structure KP where
  x : ℚ
  y : ℚ
  vis : ℚ
deriving DecidableEq

/-- One pose sample: the `keypoints` dictionary of a `PoseResult`. -/
abbrev Sample : Type := List (String × KP)

/-- `keypoints[name]` / `name in keypoints` on a sample. -/
def lookupKP (s : Sample) (name : String) : Option KP :=
  match s with
  | [] => none
  | (k, v) :: rest => if k = name then some v else lookupKP rest name

/-- `CalibrationConfig`. -/
structure CalibConfig where
  duration_seconds : ℚ
  sample_rate_hz : ℚ
  stability_threshold : ℚ
  min_visibility : ℚ
deriving DecidableEq

/-- `CalibrationConfig()` defaults. -/
def defaultCalibConfig : CalibConfig :=
  ⟨5, 10, 1/50, 7/10⟩

/-- `int(duration_seconds * sample_rate_hz)`. -/
def totalSamples (cfg : CalibConfig) : ℕ :=
  (⌊cfg.duration_seconds * cfg.sample_rate_hz⌋).toNat

/-- The required landmarks of `Calibrator._check_visibility`. -/
def requiredLandmarks : List String :=
  [("left_shoulder"), ("right_shoulder"), ("left_hip"), ("right_hip"),
   ("left_knee"), ("right_knee")]

/-- `Calibrator._check_visibility`. -/
def checkVisibility (cfg : CalibConfig) (s : Sample) : Bool :=
  requiredLandmarks.all (fun n =>
    match lookupKP s n with
    | some k => decide (¬ k.vis < cfg.min_visibility)
    | none => false)

/-- The four torso landmarks used by `Calibrator._check_stability`. -/
def stabilityLandmarks : List String :=
  [("left_shoulder"), ("right_shoulder"), ("left_hip"), ("right_hip")]

/-- Population variance (`np.std` squared): the mean squared deviation. -/
def listVariance (l : List ℚ) : ℚ :=
  (l.map (fun x => (x - l.sum / (l.length : ℚ)) ^ 2)).sum / (l.length : ℚ)

/-- `Calibrator._check_stability`, parameterised by the standard-deviation
function `std`.  `np.std` is the (irrational) square root of
`listVariance`, which has no exact rational embedding; every theorem below
constrains `std` only through properties `np.std` satisfies exactly
(`std l = 0` whenever `listVariance l = 0`, and `std l ≥ 0`). -/
def stabilityOf (std : List ℚ → ℚ) (samples : List Sample) : ℚ :=
  if samples.length < 2 then 1
  else
    let movements := stabilityLandmarks.filterMap (fun name =>
      let ps := samples.filterMap (fun s => lookupKP s name)
      if 1 < ps.length then some (std (ps.map KP.x) + std (ps.map KP.y))
      else none)
    if movements.length = 0 then 1
    else movements.sum / (movements.length : ℚ)

/-- A standard-deviation stand-in that agrees exactly with `np.std` on
zero-variance lists (the only lists the concrete runs below produce). -/
def stdIfPos (l : List ℚ) : ℚ := if listVariance l = 0 then 0 else 1

/-- The keypoints `PoseDetector.calculate_body_ratios` reads; the sample
yields a (non-empty) ratio dictionary iff all of them are present,
otherwise the `KeyError` is caught and `{}` returned. -/
def ratioLandmarks : List String :=
  [("left_shoulder"), ("right_shoulder"), ("left_wrist"), ("right_wrist"),
   ("left_hip"), ("right_hip"), ("left_ankle"), ("right_ankle")]

/-- Whether a sample yields body ratios (`calculate_body_ratios` succeeds).
The numeric ratio values (irrational Euclidean distances) are not needed by
any claim; only the success/failure of the computation is modelled. -/
def ratioOk (s : Sample) : Bool :=
  ratioLandmarks.all (fun n => (lookupKP s n).isSome)

/-- `Calibrator._calculate_ratios` returns a truthy dictionary iff some
collected sample yields ratios. -/
def ratiosExist (samples : List Sample) : Bool :=
  samples.any ratioOk

/-- The terminal outcomes of a calibration run. -/
inductive CalResult where
  | notEnoughData | unstable | ratioFailure | success
deriving DecidableEq

/-- The post-collection decision of `Calibrator.calibrate_stream`
(50 % sample check, then stability, then ratios). -/
def streamDecision (std : List ℚ → ℚ) (cfg : CalibConfig)
    (samples : List Sample) (total : ℕ) : CalResult :=
  if (samples.length : ℚ) < (total : ℚ) * (1/2) then .notEnoughData
  else if stabilityOf std samples > cfg.stability_threshold * (5/2) then .unstable
  else if ¬ ratiosExist samples then .ratioFailure
  else .success

/-- The post-collection decision of the simplified `Calibrator.calibrate`
(60 % sample check, then ratios; it has no stability check). -/
def calibrateDecision (samples : List Sample) (total : ℕ) : CalResult :=
  if (samples.length : ℚ) < (total : ℚ) * (3/5) then .notEnoughData
  else if ¬ ratiosExist samples then .ratioFailure
  else .success

/-- One iteration of the `calibrate_stream` sampling loop: whether
`cancel()` was called before this iteration's `while` check, the elapsed
time, whether `get_frame()` succeeded, and the current `latest_result`. -/
structure Tick where
  cancel : Bool
  time : ℚ
  frameOk : Bool
  pose : Option Sample
deriving DecidableEq

/-- The sampling loop of `calibrate_stream`: `while collected < total and
self.is_calibrating`, with the sample-rate gate, the frame check and the
visibility filter.  Returns the collected samples. -/
def collectSamples (cfg : CalibConfig) (total : ℕ) :
    List Tick → List Sample → Bool → List Sample
  | [], samples, _ => samples
  | tk :: rest, samples, calibrating =>
    let calibrating := calibrating && ! tk.cancel
    if samples.length < total ∧ calibrating then
      if tk.time < (samples.length : ℚ) * (1 / cfg.sample_rate_hz) then
        collectSamples cfg total rest samples calibrating
      else if ¬ tk.frameOk then
        collectSamples cfg total rest samples calibrating
      else
        match tk.pose with
        | some p =>
          if checkVisibility cfg p then
            collectSamples cfg total rest (samples ++ [p]) calibrating
          else collectSamples cfg total rest samples calibrating
        | none => collectSamples cfg total rest samples calibrating
    else samples

/-- A whole `calibrate_stream` run: collect, then decide. -/
def streamRun (std : List ℚ → ℚ) (cfg : CalibConfig) (ticks : List Tick) :
    CalResult :=
  streamDecision std cfg (collectSamples cfg (totalSamples cfg) ticks [] true)
    (totalSamples cfg)

/-! ### Freshness-gated consumer (`main.py` / `pose_detector.py`) -/

/-- One poll of the orchestration loop: read `latest_result` (possibly
absent) and process it only if its `result_id` is strictly greater than
`last_processed_id`.  Returns the new `last_processed_id` and whether the
result was processed. -/
def consumerStep (last : ℤ) (r : Option ℤ) : ℤ × Bool :=
  match r with
  | none => (last, false)
  | some rid => if last < rid then (rid, true) else (last, false)

/-- The `result_id`s processed by the consumer over a sequence of polls of
the latest-result slot. -/
def processedIds (last : ℤ) : List (Option ℤ) → List ℤ
  | [] => []
  | none :: rest => processedIds last rest
  | some rid :: rest =>
    if last < rid then rid :: processedIds rid rest
    else processedIds last rest

/-! ### Helper lemmas -/

theorem processedIds_lt (l : List (Option ℤ)) :
    ∀ (init : ℤ), ∀ x ∈ processedIds init l, init < x := by
  induction l with
  | nil => intro init x hx; simp [processedIds] at hx
  | cons r rest ih =>
    intro init x hx
    cases r with
    | none => exact ih init x (by simpa [processedIds] using hx)
    | some rid =>
      by_cases h : init < rid
      · rw [processedIds, if_pos h] at hx
        rcases List.mem_cons.mp hx with rfl | hx
        · exact h
        · exact lt_trans h (ih rid x hx)
      · rw [processedIds, if_neg h] at hx
        exact ih init x hx

theorem processedIds_chain (l : List (Option ℤ)) :
    ∀ init : ℤ, List.Chain' (· < ·) (processedIds init l) := by
  induction l with
  | nil => intro init; simp [processedIds]
  | cons r rest ih =>
    intro init
    cases r with
    | none => simpa [processedIds] using ih init
    | some rid =>
      by_cases h : init < rid
      · rw [processedIds, if_pos h]
        refine List.chain'_cons'.mpr ⟨fun b hb => ?_, ih rid⟩
        exact processedIds_lt rest rid b (List.mem_of_mem_head? hb)
      · rw [processedIds, if_neg h]
        exact ih init

/-! ### Claim theorems -/

/-- C2: the orchestration-loop consumer processes a published result only
when its `result_id` is strictly greater than the last processed id; over
any sequence of published results the processed ids are strictly
increasing (hence each id is processed at most once), and reading the same
`result_id` a second time leaves the consumer state unchanged and
processes nothing. -/
theorem C2_freshness_consumer :
    (∀ (init : ℤ) (l : List (Option ℤ)),
      List.Chain' (· < ·) (processedIds init l) ∧ (processedIds init l).Nodup) ∧
    (∀ (last rid : ℤ), (consumerStep last (some rid)).2 = true ↔ last < rid) ∧
    (∀ (last : ℤ) (r : Option ℤ),
      consumerStep (consumerStep last r).1 r = ((consumerStep last r).1, false)) := by
  refine ⟨fun init l => ⟨processedIds_chain l init, ?_⟩, fun last rid => ?_, ?_⟩
  · have hp : (processedIds init l).Pairwise (· < ·) :=
      List.chain'_iff_pairwise.mp (processedIds_chain l init)
    exact hp.imp ne_of_lt
  · constructor
    · intro h
      by_contra hlt
      simp [consumerStep, hlt] at h
    · intro h
      simp [consumerStep, h]
  · intro last r
    cases r with
    | none => rfl
    | some rid =>
      by_cases h : last < rid
      · simp [consumerStep, h]
      · simp [consumerStep, h]

/-- C9: `new_set` increments the set counter, clears the per-set rep
counter and the rolling rep-duration history, and leaves the cumulative
rep counter, exercise type, phase and thresholds untouched. -/
theorem C9_new_set_frame :
    ∀ e : Engine,
      (newSet e).state.set_count = e.state.set_count + 1 ∧
      (newSet e).state.rep_count = 0 ∧
      (newSet e).state.rep_times = [] ∧
      (newSet e).state.total_reps = e.state.total_reps ∧
      (newSet e).state.current_type = e.state.current_type ∧
      (newSet e).state.current_phase = e.state.current_phase ∧
      (newSet e).thresholds = e.thresholds :=
  fun _ => ⟨rfl, rfl, rfl, rfl, rfl, rfl, rfl⟩

/-- The slowdown formula of the specification: mean of the last two rep
durations against the mean of the first two, as a percentage (spec-side
definition, to be compared with `detectFatigue`). -/
def slowdownSpec (l : List ℚ) : ℚ :=
  let initial_avg := (l.take 2).sum / 2
  let recent_avg := (l.drop (l.length - 2)).sum / 2
  (recent_avg - initial_avg) / initial_avg * 100

/-- C5: `detect_fatigue` is a pure function of the rolling history: fewer
than 3 entries yields (not fatigued, 0); otherwise the result is exactly
(slowdown > 20, max 0 slowdown) with the spec's slowdown formula.  The
histories quantified over are histories of rep durations, which are
non-negative. -/
theorem C5_detect_fatigue :
    ∀ l : List ℚ, (∀ x ∈ l, 0 ≤ x) →
      (l.length < 3 → detectFatigue l = (false, 0)) ∧
      (3 ≤ l.length →
        detectFatigue l = (decide (slowdownSpec l > 20), max 0 (slowdownSpec l))) := by
  intro l hnn
  refine ⟨fun h => by simp [detectFatigue, h], fun h => ?_⟩
  have hlen : ¬ l.length < 3 := not_lt.mpr h
  unfold detectFatigue slowdownSpec
  rw [if_neg hlen]
  dsimp only
  split_ifs with hpos
  · rfl
  · have hs : 0 ≤ (l.take 2).sum :=
      List.sum_nonneg fun x hx => hnn x (List.take_subset 2 l hx)
    have h0 : (l.take 2).sum / 2 = 0 :=
      le_antisymm (not_lt.mp hpos) (by positivity)
    rw [h0]
    simp

/-- C5 witness: history `[1, 1, 3/2]` has non-negative entries and the
theorem evaluates `detect_fatigue` on it to (fatigued, 25 %). -/
theorem C5_detect_fatigue_witness :
    (∀ x ∈ ([1, 1, 3/2] : List ℚ), 0 ≤ x) ∧
      detectFatigue [1, 1, 3/2] = (true, 25) := by
  have hnn : ∀ x ∈ ([1, 1, 3/2] : List ℚ), 0 ≤ x := by norm_num
  have h := (C5_detect_fatigue [1, 1, 3/2] hnn).2 (by norm_num)
  refine ⟨hnn, h.trans ?_⟩
  norm_num [slowdownSpec]

/-- A rep attempt: the configurations in which `_is_rep_complete` sets
`rep_just_finished` (the rep-completion edge of the phase state machine). -/
def repAttempt (e : Engine) (p : ExercisePhase) (now2 : ℚ) : Prop :=
  (e.state.current_type ∈ groupA ∧ p = .up ∧ e.rep_progress_flag = true) ∨
  (e.state.current_type ∈ groupB ∧ p = .down ∧ e.rep_progress_flag = true) ∨
  (e.state.current_type = .plank ∧ e.prev_phase = .hold ∧ p ≠ .hold ∧
    now2 - e.phase_start_time > e.thresholds .plank_hold_time)

/-- The first failing check in the spec's fixed evaluation order
`too_fast`, `low_visibility`, `poor_form` (spec-side definition). -/
def firstFailingReason (duration minVis minQual : ℚ) (t : Thresholds) : String :=
  if duration < t .min_rep_duration then ("too_fast")
  else if minVis < t .min_visibility_threshold then ("low_visibility")
  else ("poor_form")

theorem applyGate_spec (e : Engine) (now2 : ℚ) :
    ((applyGate e now2).2.1 = true ↔
      (e.thresholds .min_rep_duration ≤ now2 - e.state.rep_start_time ∧
       e.thresholds .min_visibility_threshold ≤ e.state.min_visibility_in_rep ∧
       e.thresholds .min_form_quality_threshold ≤ e.state.min_quality_in_rep)) ∧
    ((applyGate e now2).2.1 = true → (applyGate e now2).2.2 = none) ∧
    ((applyGate e now2).2.1 = false →
      (applyGate e now2).2.2 = some (firstFailingReason
        (now2 - e.state.rep_start_time) e.state.min_visibility_in_rep
        e.state.min_quality_in_rep e.thresholds)) := by
  unfold applyGate firstFailingReason
  dsimp only
  split_ifs with h1 h2 h3
  · exact ⟨⟨fun hc => hc.elim, fun hc => absurd h1 (not_lt.mpr hc.1)⟩,
           fun hc => hc.elim, fun _ => rfl⟩
  · exact ⟨⟨fun hc => hc.elim, fun hc => absurd h2 (not_lt.mpr hc.2.1)⟩,
           fun hc => hc.elim, fun _ => rfl⟩
  · exact ⟨⟨fun hc => hc.elim, fun hc => absurd h3 (not_lt.mpr hc.2.2)⟩,
           fun hc => hc.elim, fun _ => rfl⟩
  · exact ⟨⟨fun _ => ⟨not_lt.mp h1, not_lt.mp h2, not_lt.mp h3⟩, fun _ => by trivial⟩,
           fun _ => rfl, fun hc => hc.elim⟩

theorem repEdge_attempt (e : Engine) (p : ExercisePhase) (now2 : ℚ)
    (h : repAttempt e p now2) : repEdge e p now2 = (e, true) := by
  rcases h with ⟨hA, hp, hf⟩ | ⟨hB, hp, hf⟩ | ⟨hP, hprev, hnp, hd⟩
  · subst hp
    simp [repEdge, if_pos hA, hf]
  · subst hp
    have hnA : e.state.current_type ∉ groupA := by
      simp only [groupA, groupB, List.mem_cons, List.not_mem_nil, or_false] at hB ⊢
      rcases hB with h' | h' | h' | h' <;> rw [h'] <;> decide
    simp [repEdge, if_neg hnA, if_pos hB, hf]
  · have hnA : e.state.current_type ∉ groupA := by
      rw [hP]; decide
    have hnB : e.state.current_type ∉ groupB := by
      rw [hP]; decide
    have hdec : decide (now2 - e.phase_start_time > e.thresholds .plank_hold_time) =
        true := decide_eq_true hd
    simp only [repEdge]
    rw [if_neg hnA, if_neg hnB, if_pos hP,
      if_pos (show e.prev_phase = ExercisePhase.hold ∧ p ≠ ExercisePhase.hold from
        ⟨hprev, hnp⟩),
      hdec]

theorem isRepComplete_attempt (e : Engine) (p : ExercisePhase) (now2 : ℚ)
    (h : repAttempt e p now2) :
    isRepComplete e p now2 = applyGate e now2 := by
  simp [isRepComplete, repEdge_attempt e p now2 h]

/-- C1: at every rep-completion edge, the rep is accepted iff the duration
since rep start reaches `min_rep_duration`, the minimum in-rep visibility
reaches the visibility threshold, and the minimum in-rep quality reaches
the quality threshold; otherwise exactly one rejection reason is returned,
equal to the first failing check in the order `too_fast`, `low_visibility`,
`poor_form`. -/
theorem C1_rep_acceptance_gate (e : Engine) (p : ExercisePhase) (now2 : ℚ)
    (h : repAttempt e p now2) :
    ((isRepComplete e p now2).2.1 = true ↔
      (e.thresholds .min_rep_duration ≤ now2 - e.state.rep_start_time ∧
       e.thresholds .min_visibility_threshold ≤ e.state.min_visibility_in_rep ∧
       e.thresholds .min_form_quality_threshold ≤ e.state.min_quality_in_rep)) ∧
    ((isRepComplete e p now2).2.1 = true → (isRepComplete e p now2).2.2 = none) ∧
    ((isRepComplete e p now2).2.1 = false →
      (isRepComplete e p now2).2.2 = some (firstFailingReason
        (now2 - e.state.rep_start_time) e.state.min_visibility_in_rep
        e.state.min_quality_in_rep e.thresholds)) := by
  rw [isRepComplete_attempt e p now2 h]
  exact applyGate_spec e now2

/-- A concrete engine mid-squat-rep for the C1 witness. -/
def C1engine : Engine :=
  { initEngine 0 with
      state := { initState with current_type := .squat },
      rep_progress_flag := true }

/-- C1 witness: a squat completion edge at time 1 with default thresholds
and perfect trackers is a rep attempt, and the gate accepts it. -/
theorem C1_rep_acceptance_gate_witness :
    repAttempt C1engine .up 1 ∧
    ((isRepComplete C1engine .up 1).2.1 = true ↔
      (C1engine.thresholds .min_rep_duration ≤ 1 - C1engine.state.rep_start_time ∧
       C1engine.thresholds .min_visibility_threshold ≤
         C1engine.state.min_visibility_in_rep ∧
       C1engine.thresholds .min_form_quality_threshold ≤
         C1engine.state.min_quality_in_rep)) ∧
    ((isRepComplete C1engine .up 1).2.1 = true →
      (isRepComplete C1engine .up 1).2.2 = none) ∧
    ((isRepComplete C1engine .up 1).2.1 = false →
      (isRepComplete C1engine .up 1).2.2 = some (firstFailingReason
        (1 - C1engine.state.rep_start_time) C1engine.state.min_visibility_in_rep
        C1engine.state.min_quality_in_rep C1engine.thresholds)) := by
  have hatt : repAttempt C1engine .up 1 := Or.inl ⟨by decide, rfl, rfl⟩
  exact ⟨hatt, C1_rep_acceptance_gate C1engine .up 1 hatt⟩

theorem mapExerciseNameCore_nil : mapExerciseNameCore [] = .unknown := by decide

theorem normalizeName_nil : normalizeName [] = [] := rfl

/-- C10: `map_exercise_name` is total over strings (it is a Lean function,
and the one exception its Python body can raise is caught); the empty
string maps to `unknown`; two strings with the same
lower/strip/hyphen-to-underscore normalisation map to the same exercise
(insensitivity to case, surrounding whitespace, and hyphen-vs-underscore
spelling); any string recognised by none of the lookups maps to `unknown`;
and the alias path resolves concrete spellings such as `" Tricep-Dips "`
and `"TRICEP_DIPS"`; lower-casing covers Latin-1 letters and stripping
covers all Python whitespace, so `"SOULEVÉ"` resolves to `deadlift` and a
vertical-tab-padded `"\x0bsquat"` to `squat`. -/
theorem C10_map_exercise_name :
    (mapExerciseName [] = .unknown) ∧
    (∀ s₁ s₂ : List Char, normalizeName s₁ = normalizeName s₂ →
      mapExerciseName s₁ = mapExerciseName s₂) ∧
    (∀ s : List Char, enumOfString (normalizeName s) = none →
      aliasLookup (normalizeName s) = .unknown →
      aliasLookup (hyphenChars (normalizeName s)) = .unknown →
      mapExerciseName s = .unknown) ∧
    (mapExerciseName ((" Tricep-Dips ").toList) = .tricep_dip) ∧
    (mapExerciseName (("TRICEP_DIPS").toList) = .tricep_dip) ∧
    (mapExerciseName (("SOULEVÉ").toList) = .deadlift) ∧
    (mapExerciseName (("\x0bsquat").toList) = .squat) := by
  refine ⟨rfl, ?_, ?_, by decide, by decide, by decide, by decide⟩
  · intro s₁ s₂ h
    unfold mapExerciseName
    by_cases h1 : s₁ = [] <;> by_cases h2 : s₂ = []
    · rw [if_pos h1, if_pos h2]
    · rw [if_pos h1, if_neg h2]
      rw [h1, normalizeName_nil] at h
      rw [← h, mapExerciseNameCore_nil]
    · rw [if_neg h1, if_pos h2]
      rw [h2, normalizeName_nil] at h
      rw [h, mapExerciseNameCore_nil]
    · rw [if_neg h1, if_neg h2, h]
  · intro s he ha hh
    unfold mapExerciseName
    by_cases h1 : s = []
    · rw [if_pos h1]
    · rw [if_neg h1]
      unfold mapExerciseNameCore
      rw [he]
      dsimp only
      rw [ha]
      split_ifs with hc
      · exact hh
      · rfl

/-- C10 witness: two spellings of "squat" differing in case and padding
normalise identically, so the theorem's insensitivity clause applies. -/
theorem C10_map_exercise_name_witness :
    normalizeName (("  SQUAT ").toList) = normalizeName (("squat").toList) ∧
    mapExerciseName (("  SQUAT ").toList) = mapExerciseName (("squat").toList) :=
  ⟨by decide, C10_map_exercise_name.2.1 _ _ (by decide)⟩

theorem findThresholdField_fieldName (f : ThresholdField) :
    findThresholdField (fieldName f) = some f := by
  cases f <;> rfl

theorem fieldName_of_find {s : String} {f : ThresholdField}
    (h : findThresholdField s = some f) : fieldName f = s := by
  have h2 := List.find?_some h
  simpa using h2

theorem applyAttrFold_char (ak : String → PyAttr) (key : String) (v : ℚ) :
    ∀ (ks : List String) (acc : ApplyOutcome),
      (∀ mk ∈ ks, ak mk ≠ PyAttr.readonly) → acc.error = none →
      ((ks.foldl (applyAttr ak key v) acc).error = none ∧
       (∀ f : ThresholdField, (ks.foldl (applyAttr ak key v) acc).obj.fields f =
         if fieldName f ∈ ks then v else acc.obj.fields f) ∧
       ((ks.foldl (applyAttr ak key v) acc).warns = acc.warns ++
         (ks.filter (fun mk => (findThresholdField mk).isNone &&
           decide (ak mk = PyAttr.absent))).map (fun mk => (key, mk)))) := by
  intro ks
  induction ks with
  | nil =>
    intro acc _ he
    exact ⟨he, fun f => by simp, by simp⟩
  | cons mk ks ih =>
    intro acc hnr he
    rw [List.foldl_cons]
    cases hm : findThresholdField mk with
    | some g =>
      have hstep : applyAttr ak key v acc mk =
          { acc with obj := { acc.obj with
              fields := setThreshold acc.obj.fields g v } } := by
        unfold applyAttr
        rw [he, hm]
      rw [hstep]
      obtain ⟨ihe, ihf, ihw⟩ :=
        ih { acc with obj := { acc.obj with
              fields := setThreshold acc.obj.fields g v } }
          (fun mk2 hmk2 => hnr mk2 (List.mem_cons_of_mem mk hmk2)) he
      have hg : fieldName g = mk := fieldName_of_find hm
      refine ⟨ihe, fun f => ?_, ?_⟩
      · rw [ihf f]
        by_cases hmem : fieldName f ∈ ks
        · rw [if_pos hmem, if_pos (List.mem_cons_of_mem mk hmem)]
        · by_cases heq : mk = fieldName f
          · have hgf : g = f := by
              have h1 := findThresholdField_fieldName f
              rw [← heq] at h1
              exact Option.some.inj (hm.symm.trans h1)
            subst hgf
            rw [if_neg hmem, if_pos (List.mem_cons.mpr (Or.inl heq.symm))]
            simp [setThreshold]
          · have hgf : f ≠ g := fun hc => heq (by rw [← hg, hc])
            rw [if_neg hmem,
              if_neg (by
                rw [List.mem_cons]
                rintro (hc | hc)
                · exact heq hc.symm
                · exact hmem hc)]
            simp [setThreshold, hgf]
      · rw [ihw, List.filter_cons]
        simp [hm]
    | none =>
      have hne : ∀ f : ThresholdField, fieldName f ≠ mk := by
        intro f hc
        have h1 := findThresholdField_fieldName f
        rw [hc, hm] at h1
        exact Option.noConfusion h1
      cases hk : ak mk with
      | shadowable =>
        have hstep : applyAttr ak key v acc mk =
            { acc with obj := { acc.obj with
                shadow := setShadow acc.obj.shadow mk v } } := by
          unfold applyAttr
          rw [he, hm, hk]
        rw [hstep]
        obtain ⟨ihe, ihf, ihw⟩ :=
          ih { acc with obj := { acc.obj with
                shadow := setShadow acc.obj.shadow mk v } }
            (fun mk2 hmk2 => hnr mk2 (List.mem_cons_of_mem mk hmk2)) he
        refine ⟨ihe, fun f => ?_, ?_⟩
        · rw [ihf f]
          by_cases hmem : fieldName f ∈ ks
          · rw [if_pos hmem, if_pos (List.mem_cons_of_mem mk hmem)]
          · rw [if_neg hmem, if_neg (fun hc =>
              (List.mem_cons.mp hc).elim (fun h => hne f h) (fun h => hmem h))]
        · rw [ihw, List.filter_cons]
          simp [hm, hk]
      | readonly => exact absurd hk (hnr mk (List.mem_cons_self mk ks))
      | absent =>
        have hstep : applyAttr ak key v acc mk =
            { acc with warns := acc.warns ++ [(key, mk)] } := by
          unfold applyAttr
          rw [he, hm, hk]
        rw [hstep]
        obtain ⟨ihe, ihf, ihw⟩ :=
          ih { acc with warns := acc.warns ++ [(key, mk)] }
            (fun mk2 hmk2 => hnr mk2 (List.mem_cons_of_mem mk hmk2)) he
        refine ⟨ihe, fun f => ?_, ?_⟩
        · rw [ihf f]
          by_cases hmem : fieldName f ∈ ks
          · rw [if_pos hmem, if_pos (List.mem_cons_of_mem mk hmem)]
          · rw [if_neg hmem, if_neg (fun hc =>
              (List.mem_cons.mp hc).elim (fun h => hne f h) (fun h => hmem h))]
        · rw [ihw, List.filter_cons]
          simp [hm, hk, List.append_assoc]

theorem applyKeyObj_char (ak : String → PyAttr) (kv : String × ℚ)
    (acc : ApplyOutcome)
    (hnr : ∀ mk ∈ keyMappingList kv.1, ak mk ≠ PyAttr.readonly)
    (he : acc.error = none) :
    ((applyKeyObj ak kv acc).error = none ∧
     (∀ f : ThresholdField, (applyKeyObj ak kv acc).obj.fields f =
       if fieldName f ∈ keyMappingList kv.1 then kv.2 else acc.obj.fields f) ∧
     ((applyKeyObj ak kv acc).warns = acc.warns ++
       ((keyMappingList kv.1).filter (fun mk => (findThresholdField mk).isNone &&
         decide (ak mk = PyAttr.absent))).map (fun mk => (kv.1, mk)))) := by
  unfold applyKeyObj
  exact applyAttrFold_char ak kv.1 kv.2 (keyMappingList kv.1) acc hnr he

theorem applyCustomObj_char (ak : String → PyAttr) (m : List (String × ℚ)) :
    ∀ acc : ApplyOutcome,
      (∀ k ∈ m, ∀ mk ∈ keyMappingList k.1, ak mk ≠ PyAttr.readonly) →
      acc.error = none →
      ((m.foldl (fun a kv => applyKeyObj ak kv a) acc).error = none ∧
       (∀ f : ThresholdField,
         (m.foldl (fun a kv => applyKeyObj ak kv a) acc).obj.fields f =
           m.foldl (fun v kv => if fieldName f ∈ keyMappingList kv.1 then kv.2 else v)
             (acc.obj.fields f)) ∧
       ((m.foldl (fun a kv => applyKeyObj ak kv a) acc).warns =
         m.foldl (fun w kv => w ++ ((keyMappingList kv.1).filter
           (fun mk => (findThresholdField mk).isNone &&
             decide (ak mk = PyAttr.absent))).map (fun mk => (kv.1, mk)))
           acc.warns)) := by
  induction m with
  | nil =>
    intro acc _ he
    exact ⟨he, fun f => rfl, rfl⟩
  | cons kv m ih =>
    intro acc hnr he
    obtain ⟨ke, kf, kw⟩ :=
      applyKeyObj_char ak kv acc (hnr kv (List.mem_cons_self kv m)) he
    obtain ⟨ie, imf, iw⟩ :=
      ih (applyKeyObj ak kv acc) (fun k hk => hnr k (List.mem_cons_of_mem kv hk)) ke
    refine ⟨by rw [List.foldl_cons]; exact ie, fun f => ?_, ?_⟩
    · rw [List.foldl_cons, List.foldl_cons, imf f, kf f]
    · rw [List.foldl_cons, List.foldl_cons, iw, kw]

/-- C8 (amended): when no override maps to a read-only descriptor name,
`apply_custom_thresholds` raises nothing, each threshold field ends at the
value of the last override targeting it (its old value when none does),
and a warning is printed exactly for the mapped keys that are no attribute
of the thresholds object at all — keys naming inherited shadowable
attributes (such as `__init__`) are silently applied to the instance dict,
with no warning and no threshold-field change.  A map with one field key
and one unrecognised key still mutates only that field and warns once. -/
theorem C8_threshold_override_amended (ak : String → PyAttr)
    (m : List (String × ℚ)) (t : ThresholdsObj)
    (hnr : ∀ k ∈ m, ∀ mk ∈ keyMappingList k.1, ak mk ≠ PyAttr.readonly) :
    ((applyCustomThresholdsObj ak m t).error = none) ∧
    (∀ f : ThresholdField, (applyCustomThresholdsObj ak m t).obj.fields f =
      m.foldl (fun v kv => if fieldName f ∈ keyMappingList kv.1 then kv.2 else v)
        (t.fields f)) ∧
    ((applyCustomThresholdsObj ak m t).warns =
      m.foldl (fun w kv => w ++ ((keyMappingList kv.1).filter
        (fun mk => (findThresholdField mk).isNone &&
          decide (ak mk = PyAttr.absent))).map (fun mk => (kv.1, mk))) []) ∧
    (∀ v₁ v₂ : ℚ,
      (applyCustomThresholdsObj pyAttrKind
        [(("squat_knee_down"), v₁), (("mystery_key"), v₂)] t).obj.fields =
        setThreshold t.fields .squat_knee_down v₁ ∧
      (applyCustomThresholdsObj pyAttrKind
        [(("squat_knee_down"), v₁), (("mystery_key"), v₂)] t).obj.shadow = t.shadow ∧
      (applyCustomThresholdsObj pyAttrKind
        [(("squat_knee_down"), v₁), (("mystery_key"), v₂)] t).warns =
        [(("mystery_key"), ("mystery_key"))]) := by
  obtain ⟨he, hf, hw⟩ := applyCustomObj_char ak m ⟨t, [], none⟩ hnr rfl
  exact ⟨he, hf, hw, fun v₁ v₂ => ⟨rfl, rfl, rfl⟩⟩

/-- C8 counterexample: `hasattr` is also true for inherited attribute
names, so the override key `"__init__"` — which neither names nor maps to
any threshold field — is silently `setattr`'d onto the thresholds object:
no warning, no `TypeError`, no threshold field changed, and the float
stored in the instance dict.  The claim says every such key produces a
warning and the spec says unknown names are never silently applied. -/
theorem C8_silent_inherited_counterexample :
    findThresholdField ("__init__") = none ∧
    keyMappingList ("__init__") = [("__init__")] ∧
    (applyCustomThresholdsObj pyAttrKind [(("__init__"), 1)]
      ⟨defaultThresholds, []⟩).warns = [] ∧
    (applyCustomThresholdsObj pyAttrKind [(("__init__"), 1)]
      ⟨defaultThresholds, []⟩).error = none ∧
    (applyCustomThresholdsObj pyAttrKind [(("__init__"), 1)]
      ⟨defaultThresholds, []⟩).obj.fields = defaultThresholds ∧
    (applyCustomThresholdsObj pyAttrKind [(("__init__"), 1)]
      ⟨defaultThresholds, []⟩).obj.shadow = [(("__init__"), 1)] :=
  ⟨by decide, by decide, rfl, rfl, rfl, rfl⟩

/-- The override map of the C8 witness: one mapped field key, one silently
shadowed inherited name, one genuinely unknown key. -/
def C8witnessMap : List (String × ℚ) :=
  [(("plank_hip_angle"), 7), (("__init__"), 1), (("no_such_key"), 2)]

/-- C8 witness: the amended theorem applied to `C8witnessMap` over the
default thresholds, with its no-read-only hypothesis discharged. -/
theorem C8_threshold_override_amended_witness :
    (applyCustomThresholdsObj pyAttrKind C8witnessMap
      ⟨defaultThresholds, []⟩).error = none ∧
    (applyCustomThresholdsObj pyAttrKind C8witnessMap
      ⟨defaultThresholds, []⟩).warns = [(("no_such_key"), ("no_such_key"))] ∧
    (applyCustomThresholdsObj pyAttrKind C8witnessMap
      ⟨defaultThresholds, []⟩).obj.fields .plank_hip_min = 7 := by
  have hnr : ∀ k ∈ C8witnessMap, ∀ mk ∈ keyMappingList k.1,
      pyAttrKind mk ≠ PyAttr.readonly := by decide
  obtain ⟨he, hf, hw, h2⟩ :=
    C8_threshold_override_amended pyAttrKind C8witnessMap ⟨defaultThresholds, []⟩ hnr
  refine ⟨he, ?_, ?_⟩
  · rw [hw]
    rfl
  · rw [hf ThresholdField.plank_hip_min]
    rfl

theorem repEdge_frame (e : Engine) (p : ExercisePhase) (n2 : ℚ) :
    (repEdge e p n2).1.state.rep_count = e.state.rep_count ∧
    (repEdge e p n2).1.state.total_reps = e.state.total_reps ∧
    (repEdge e p n2).1.state.rep_times = e.state.rep_times ∧
    (repEdge e p n2).1.state.last_rep_time = e.state.last_rep_time ∧
    (repEdge e p n2).1.state.min_quality_in_rep = e.state.min_quality_in_rep := by
  unfold repEdge
  split_ifs <;> exact ⟨rfl, rfl, rfl, rfl, rfl⟩

theorem applyGate_fst_state (e : Engine) (n2 : ℚ) :
    (applyGate e n2).1.state = e.state := by
  unfold applyGate
  dsimp only
  split_ifs <;> rfl

theorem isRepComplete_frame (e : Engine) (p : ExercisePhase) (n2 : ℚ) :
    (isRepComplete e p n2).1.state.rep_count = e.state.rep_count ∧
    (isRepComplete e p n2).1.state.total_reps = e.state.total_reps ∧
    (isRepComplete e p n2).1.state.rep_times = e.state.rep_times ∧
    (isRepComplete e p n2).1.state.last_rep_time = e.state.last_rep_time ∧
    (isRepComplete e p n2).1.state.min_quality_in_rep = e.state.min_quality_in_rep := by
  obtain ⟨h1, h2, h3, h4, h5⟩ := repEdge_frame e p n2
  unfold isRepComplete
  split_ifs with hb
  · rw [applyGate_fst_state]
    exact ⟨h1, h2, h3, h4, h5⟩
  · exact ⟨h1, h2, h3, h4, h5⟩

theorem repStep_accepted (e : Engine) (p : ExercisePhase) (now now2 : ℚ)
    (h : (repStep e p now now2).1.state.rep_count = e.state.rep_count + 1) :
    (repStep e p now now2).1.state.rep_times =
      ((if 5 ≤ e.state.rep_times.length then e.state.rep_times.tail
        else e.state.rep_times) ++ [now - e.state.last_rep_time]) ∧
    (repStep e p now now2).1.state.avg_rep_time =
      ((if 5 ≤ e.state.rep_times.length then e.state.rep_times.tail
        else e.state.rep_times) ++ [now - e.state.last_rep_time]).sum /
      ((((if 5 ≤ e.state.rep_times.length then e.state.rep_times.tail
        else e.state.rep_times) ++ [now - e.state.last_rep_time]).length : ℚ)) ∧
    Event.repComplete ((repStep e p now now2).1.state.rep_count)
      ((repStep e p now now2).1.state.total_reps)
      (round2 (now - e.state.last_rep_time)) (round2 e.state.min_quality_in_rep)
      ∈ (repStep e p now now2).2 := by
  obtain ⟨h1, h2, h3, h4, h5⟩ := isRepComplete_frame e p now2
  unfold repStep at h ⊢
  dsimp only at h ⊢
  cases hb : (isRepComplete e p now2).2.1 with
  | false =>
    exfalso
    rw [hb] at h
    simp only [Bool.false_eq_true, if_false] at h
    cases hr : (isRepComplete e p now2).2.2 <;> rw [hr] at h <;>
      dsimp only at h <;> rw [h1] at h <;> omega
  | true =>
    have ht : (true = true) := rfl
    rw [if_pos ht]
    dsimp only
    rw [h3, h4, h5]
    exact ⟨rfl, rfl, List.mem_singleton.mpr rfl⟩

theorem classifyStep_frame (e : Engine) (a : Angles) (ty : Option ExerciseType) :
    (classifyStep e a ty).state.rep_count = e.state.rep_count ∧
    (classifyStep e a ty).state.total_reps = e.state.total_reps ∧
    (classifyStep e a ty).state.rep_times = e.state.rep_times ∧
    (classifyStep e a ty).state.last_rep_time = e.state.last_rep_time ∧
    (classifyStep e a ty).state.min_quality_in_rep = e.state.min_quality_in_rep ∧
    (classifyStep e a ty).state.form_quality = e.state.form_quality ∧
    (classifyStep e a ty).rep_progress_flag = e.rep_progress_flag := by
  unfold classifyStep
  cases ty with
  | none =>
    dsimp only
    split_ifs <;> exact ⟨rfl, rfl, rfl, rfl, rfl, rfl, rfl⟩
  | some t => exact ⟨rfl, rfl, rfl, rfl, rfl, rfl, rfl⟩

theorem trackMinStep_frame (e : Engine) (now : ℚ) :
    (trackMinStep e now).state.rep_count = e.state.rep_count ∧
    (trackMinStep e now).state.total_reps = e.state.total_reps ∧
    (trackMinStep e now).state.rep_times = e.state.rep_times ∧
    (trackMinStep e now).state.last_rep_time = e.state.last_rep_time ∧
    (trackMinStep e now).state.min_quality_in_rep =
      (if e.rep_progress_flag then
        min e.state.min_quality_in_rep e.state.form_quality
       else e.state.form_quality) := by
  unfold trackMinStep
  split_ifs <;> exact ⟨rfl, rfl, rfl, rfl, rfl⟩

theorem formStep_frame (e : Engine) (a : Angles) :
    (formStep e a).1.state.rep_count = e.state.rep_count ∧
    (formStep e a).1.state.total_reps = e.state.total_reps ∧
    (formStep e a).1.state.rep_times = e.state.rep_times ∧
    (formStep e a).1.state.avg_rep_time = e.state.avg_rep_time :=
  ⟨rfl, rfl, rfl, rfl⟩

theorem phaseStep_frame (e : Engine) (p : ExercisePhase) (now : ℚ) :
    (phaseStep e p now).state.rep_count = e.state.rep_count ∧
    (phaseStep e p now).state.total_reps = e.state.total_reps ∧
    (phaseStep e p now).state.rep_times = e.state.rep_times ∧
    (phaseStep e p now).state.avg_rep_time = e.state.avg_rep_time := by
  unfold phaseStep
  dsimp only
  split_ifs <;> exact ⟨rfl, rfl, rfl, rfl⟩

/-- C4 (amended): for every accepted rep, the value pushed into the
length-5 rolling history (and reported, rounded, as the `rep_complete`
event's elapsed time) is `now - last_rep_time`: the time since the
previous accepted rep (the time since the clock origin for the first rep
of a session), not the time since the rep began; the history is trimmed to
its last 4 entries before the push, and the rolling average is the mean of
the new history. -/
theorem C4_rep_history_amended (e : Engine) (a : Angles) (ty : Option ExerciseType)
    (vis now now2 : ℚ)
    (h : (updateEngine e a ty vis now now2).1.state.rep_count =
      e.state.rep_count + 1) :
    (updateEngine e a ty vis now now2).1.state.rep_times =
      ((if 5 ≤ e.state.rep_times.length then e.state.rep_times.tail
        else e.state.rep_times) ++ [now - e.state.last_rep_time]) ∧
    (updateEngine e a ty vis now now2).1.state.avg_rep_time =
      ((if 5 ≤ e.state.rep_times.length then e.state.rep_times.tail
        else e.state.rep_times) ++ [now - e.state.last_rep_time]).sum /
      ((((if 5 ≤ e.state.rep_times.length then e.state.rep_times.tail
        else e.state.rep_times) ++ [now - e.state.last_rep_time]).length : ℚ)) ∧
    Event.repComplete ((updateEngine e a ty vis now now2).1.state.rep_count)
      ((updateEngine e a ty vis now now2).1.state.total_reps)
      (round2 (now - e.state.last_rep_time))
      (round2 (if e.rep_progress_flag then
          min e.state.min_quality_in_rep e.state.form_quality
        else e.state.form_quality))
      ∈ (updateEngine e a ty vis now now2).2 := by
  simp only [updateEngine] at h ⊢
  set Y : Engine := { e with state := { e.state with visibility := vis } } with hY
  set E2 : Engine := classifyStep Y a ty with hE2
  set np : ExercisePhase := detectPhase E2.thresholds a E2.state.current_type with hnp
  set E3 : Engine := trackMinStep E2 now with hE3
  obtain ⟨c1, c2, c3, c4, c5, c6, c7⟩ := classifyStep_frame Y a ty
  obtain ⟨t1, t2, t3, t4, t5⟩ := trackMinStep_frame E2 now
  have hYc : Y.state.rep_count = e.state.rep_count := rfl
  have hYt : Y.state.rep_times = e.state.rep_times := rfl
  have hYl : Y.state.last_rep_time = e.state.last_rep_time := rfl
  have hE3c : E3.state.rep_count = e.state.rep_count := by
    rw [hE3, t1, hE2, c1]
  have hE3t : E3.state.rep_times = e.state.rep_times := by
    rw [hE3, t3, hE2, c3]
  have hE3l : E3.state.last_rep_time = e.state.last_rep_time := by
    rw [hE3, t4, hE2, c4]
  have hE3q : E3.state.min_quality_in_rep =
      (if e.rep_progress_flag then
        min e.state.min_quality_in_rep e.state.form_quality
       else e.state.form_quality) := by
    rw [hE3, t5, hE2, c5, c6, c7]
  obtain ⟨p1, p2, p3, p4⟩ :=
    phaseStep_frame (formStep (repStep E3 np now now2).1 a).1 np now
  obtain ⟨f1, f2, f3, f4⟩ := formStep_frame (repStep E3 np now now2).1 a
  have h2 : (repStep E3 np now now2).1.state.rep_count = E3.state.rep_count + 1 := by
    rw [hE3c, ← h, p1, f1]
  obtain ⟨r1, r2, r3⟩ := repStep_accepted E3 np now now2 h2
  rw [hE3t, hE3l] at r1 r2
  rw [hE3l, hE3q] at r3
  refine ⟨?_, ?_, ?_⟩
  · rw [p3, f3, r1]
  · rw [p4, f4, r2]
  · rw [p1, f1, p2, f2]
    exact List.mem_append_left _ r3

/-- An angles dictionary with both knees at the given angle. -/
def squatAngles (knee : ℚ) : Angles := [(("left_knee"), knee), (("right_knee"), knee)]

/-- C4 run, frame 1: squat down (knees 70°) at time 100, visibility 1. -/
def C4run1 : Engine × List Event :=
  updateEngine (initEngine 0) (squatAngles 70) (some .squat) 1 100 100

/-- C4 run, frame 2: squat up (knees 170°) at time 101.5; the rep is
accepted 1.5 s after the rep began. -/
def C4run2 : Engine × List Event :=
  updateEngine C4run1.1 (squatAngles 170) (some .squat) 1 (203/2) (203/2)

/-- The engine state after the first C4 frame, written out. -/
def C4engine1 : Engine where
  state :=
    { current_type := .squat
      current_phase := .down
      rep_count := 0
      set_count := 0
      feedback_codes := []
      ml_label := none
      ml_confidence := 0
      total_reps := 0
      rep_times := []
      last_rep_time := 0
      avg_rep_time := 0
      form_quality := 1
      form_issues := []
      visibility := 1
      min_quality_in_rep := 1
      min_visibility_in_rep := 1
      rep_start_time := 100 }
  thresholds := defaultThresholds
  prev_phase := .down
  rep_progress_flag := true
  phase_start_time := 100
  confidence := 1

theorem C4run1_eval : C4run1 = (C4engine1, []) := by
  have hphase : detectPhase defaultThresholds (squatAngles 70) .squat = .down := by
    norm_num [detectPhase, getA, squatAngles, defaultThresholds]
  have hform : checkForm (squatAngles 70) .squat = [] := by
    simp [checkForm, getA, squatAngles]
  have hne : ExercisePhase.down ≠ ExercisePhase.idle := by decide
  simp [C4run1, updateEngine, classifyStep, trackMinStep, repStep, formStep,
    phaseStep, isRepComplete, repEdge, initEngine, initState, hphase, hform,
    groupA, C4engine1, hne]

set_option maxHeartbeats 1000000 in
theorem C4run2_eval :
    C4run2.1.state.rep_times = [203/2] ∧
    C4run2.2 = [Event.repComplete 1 1 (203/2) 1] ∧
    C4run2.1.state.rep_start_time = 100 := by
  have hphase : detectPhase defaultThresholds (squatAngles 170) .squat = .up := by
    norm_num [detectPhase, getA, squatAngles, defaultThresholds]
  have hform : checkForm (squatAngles 170) .squat = [] := by
    simp [checkForm, getA, squatAngles]
  have hne : ExercisePhase.up ≠ ExercisePhase.down := by decide
  unfold C4run2
  rw [C4run1_eval]
  simp [updateEngine, classifyStep, trackMinStep, repStep, formStep,
    phaseStep, isRepComplete, repEdge, applyGate, hphase, hform, C4engine1,
    groupA, defaultThresholds, round2, hne]
  norm_num [hform, hne]

/-- C4 counterexample: the first accepted rep of the session started at
time 100 and completed at time 101.5 (duration 1.5 s), but the value
pushed into the rolling history and carried by the `rep_complete` event is
101.5 (`now - last_rep_time` with `last_rep_time = 0`), not 1.5. -/
theorem C4_rep_history_counterexample :
    C4run2.1.state.rep_times = [203/2] ∧
    C4run2.2 = [Event.repComplete 1 1 (203/2) 1] ∧
    C4run2.1.state.rep_start_time = 100 ∧
    ((203/2 : ℚ) - 100 = 3/2) ∧
    ((203/2 : ℚ) ≠ 3/2) := by
  obtain ⟨h1, h2, h3⟩ := C4run2_eval
  exact ⟨h1, h2, h3, by norm_num, by norm_num⟩

/-- C4 witness: the amended theorem applied to the concrete engine after
the first C4 frame, whose second frame accepts a rep. -/
theorem C4_rep_history_amended_witness :
    ((updateEngine C4engine1 (squatAngles 170) (some .squat) 1 (203/2)
        (203/2)).1.state.rep_count = C4engine1.state.rep_count + 1) ∧
    ((updateEngine C4engine1 (squatAngles 170) (some .squat) 1 (203/2)
        (203/2)).1.state.rep_times =
      ((if 5 ≤ C4engine1.state.rep_times.length then C4engine1.state.rep_times.tail
        else C4engine1.state.rep_times) ++
          [203/2 - C4engine1.state.last_rep_time]) ∧
    (updateEngine C4engine1 (squatAngles 170) (some .squat) 1 (203/2)
        (203/2)).1.state.avg_rep_time =
      ((if 5 ≤ C4engine1.state.rep_times.length then C4engine1.state.rep_times.tail
        else C4engine1.state.rep_times) ++
          [203/2 - C4engine1.state.last_rep_time]).sum /
      ((((if 5 ≤ C4engine1.state.rep_times.length then C4engine1.state.rep_times.tail
        else C4engine1.state.rep_times) ++
          [203/2 - C4engine1.state.last_rep_time]).length : ℚ)) ∧
    Event.repComplete
      ((updateEngine C4engine1 (squatAngles 170) (some .squat) 1 (203/2)
        (203/2)).1.state.rep_count)
      ((updateEngine C4engine1 (squatAngles 170) (some .squat) 1 (203/2)
        (203/2)).1.state.total_reps)
      (round2 (203/2 - C4engine1.state.last_rep_time))
      (round2 (if C4engine1.rep_progress_flag then
          min C4engine1.state.min_quality_in_rep C4engine1.state.form_quality
        else C4engine1.state.form_quality))
      ∈ (updateEngine C4engine1 (squatAngles 170) (some .squat) 1 (203/2)
        (203/2)).2) := by
  have hphase : detectPhase defaultThresholds (squatAngles 170) .squat = .up := by
    norm_num [detectPhase, getA, squatAngles, defaultThresholds]
  have hform : checkForm (squatAngles 170) .squat = [] := by
    simp [checkForm, getA, squatAngles]
  have hne : ExercisePhase.up ≠ ExercisePhase.down := by decide
  have hcount : (updateEngine C4engine1 (squatAngles 170) (some .squat) 1 (203/2)
      (203/2)).1.state.rep_count = C4engine1.state.rep_count + 1 := by
    simp [updateEngine, classifyStep, trackMinStep, repStep, formStep,
      phaseStep, isRepComplete, repEdge, applyGate, hphase, hform, C4engine1,
      groupA, defaultThresholds, hne]
    norm_num [hne]
  exact ⟨hcount, C4_rep_history_amended C4engine1 (squatAngles 170) (some .squat) 1
    (203/2) (203/2) hcount⟩

/-- An angles dictionary with both hips at the given angle. -/
def plankAngles (hip : ℚ) : Angles := [(("left_hip"), hip), (("right_hip"), hip)]

/-- Recogniser for `rep_complete` events. -/
def isRepCompleteEvent : Event → Bool
  | .repComplete _ _ _ _ => true
  | _ => false

/-- C3 run: plank; hip 100° at t=0, hip 175° at t=0.1 and t=1.2, hip 100°
at t=2.3, visibility 1 throughout, default thresholds.  The hold lasts
2.2 s > 1.5 s. -/
def C3run1 : Engine × List Event :=
  updateEngine (initEngine 0) (plankAngles 100) (some .plank) 1 0 0

def C3run2 : Engine × List Event :=
  updateEngine C3run1.1 (plankAngles 175) (some .plank) 1 (1/10) (1/10)

def C3run3 : Engine × List Event :=
  updateEngine C3run2.1 (plankAngles 175) (some .plank) 1 (12/10) (12/10)

def C3run4 : Engine × List Event :=
  updateEngine C3run3.1 (plankAngles 100) (some .plank) 1 (23/10) (23/10)

/-- C3 short-hold variant: leave the hold after only 1.0 s. -/
def C3short : Engine × List Event :=
  updateEngine C3run2.1 (plankAngles 100) (some .plank) 1 (11/10) (11/10)

/-- The engine state after the first C3 frame, written out. -/
def C3engine1 : Engine where
  state :=
    { current_type := .plank
      current_phase := .idle
      rep_count := 0
      set_count := 0
      feedback_codes := []
      ml_label := none
      ml_confidence := 0
      total_reps := 0
      rep_times := []
      last_rep_time := 0
      avg_rep_time := 0
      form_quality := 4/5
      form_issues := [("plank_hips_high")]
      visibility := 1
      min_quality_in_rep := 1
      min_visibility_in_rep := 1
      rep_start_time := 0 }
  thresholds := defaultThresholds
  prev_phase := .idle
  rep_progress_flag := false
  phase_start_time := 0
  confidence := 1

/-- The engine state after the second C3 frame (the hold has begun,
`_phase_start_time = 0.1`). -/
def C3engine2 : Engine where
  state :=
    { current_type := .plank
      current_phase := .hold
      rep_count := 0
      set_count := 0
      feedback_codes := []
      ml_label := none
      ml_confidence := 0
      total_reps := 0
      rep_times := []
      last_rep_time := 0
      avg_rep_time := 0
      form_quality := 1
      form_issues := []
      visibility := 1
      min_quality_in_rep := 4/5
      min_visibility_in_rep := 1
      rep_start_time := 1/10 }
  thresholds := defaultThresholds
  prev_phase := .hold
  rep_progress_flag := false
  phase_start_time := 1/10
  confidence := 1

/-- The engine state after the third C3 frame (still holding,
`_phase_start_time` unchanged). -/
def C3engine3 : Engine where
  state :=
    { current_type := .plank
      current_phase := .hold
      rep_count := 0
      set_count := 0
      feedback_codes := []
      ml_label := none
      ml_confidence := 0
      total_reps := 0
      rep_times := []
      last_rep_time := 0
      avg_rep_time := 0
      form_quality := 1
      form_issues := []
      visibility := 1
      min_quality_in_rep := 1
      min_visibility_in_rep := 1
      rep_start_time := 12/10 }
  thresholds := defaultThresholds
  prev_phase := .hold
  rep_progress_flag := false
  phase_start_time := 1/10
  confidence := 1

theorem C3phase_100 : detectPhase defaultThresholds (plankAngles 100) .plank = .idle := by
  norm_num [detectPhase, getA, plankAngles, defaultThresholds]

theorem C3phase_175 : detectPhase defaultThresholds (plankAngles 175) .plank = .hold := by
  norm_num [detectPhase, getA, plankAngles, defaultThresholds]

theorem C3form_100 : checkForm (plankAngles 100) .plank = [("plank_hips_high")] := by
  simp [checkForm, getA, plankAngles]
  norm_num

theorem C3form_175 : checkForm (plankAngles 175) .plank = [] := by
  simp [checkForm, getA, plankAngles]
  norm_num

theorem C3run1_eval :
    C3run1 = (C3engine1, [Event.formWarning [("plank_hips_high")]]) := by
  simp [C3run1, updateEngine, classifyStep, trackMinStep, repStep, formStep,
    phaseStep, isRepComplete, repEdge, initEngine, initState, C3phase_100,
    C3form_100, groupA, groupB, C3engine1]
  norm_num

theorem C3run2_eval : C3run2 = (C3engine2, []) := by
  have hne : ExercisePhase.hold ≠ ExercisePhase.idle := by decide
  unfold C3run2
  rw [C3run1_eval]
  simp [updateEngine, classifyStep, trackMinStep, repStep, formStep,
    phaseStep, isRepComplete, repEdge, C3phase_175, C3form_175, groupA, groupB,
    C3engine1, C3engine2, hne]

theorem C3run3_eval : C3run3 = (C3engine3, []) := by
  unfold C3run3
  rw [C3run2_eval]
  simp [updateEngine, classifyStep, trackMinStep, repStep, formStep,
    phaseStep, isRepComplete, repEdge, C3phase_175, C3form_175, groupA, groupB,
    C3engine2, C3engine3]

theorem C3run4_eval :
    C3run4.2 = [Event.repRejected ("too_fast"),
                Event.formWarning [("plank_hips_high")]] := by
  have hne : ExercisePhase.idle ≠ ExercisePhase.hold := by decide
  unfold C3run4
  rw [C3run3_eval]
  simp [updateEngine, classifyStep, trackMinStep, repStep, formStep,
    phaseStep, isRepComplete, repEdge, applyGate, C3phase_100, C3form_100,
    groupA, groupB, C3engine3, defaultThresholds, hne]
  norm_num [C3form_100]

theorem C3short_eval : C3short.2 = [Event.formWarning [("plank_hips_high")]] := by
  have hne : ExercisePhase.idle ≠ ExercisePhase.hold := by decide
  unfold C3short
  rw [C3run2_eval]
  simp [updateEngine, classifyStep, trackMinStep, repStep, formStep,
    phaseStep, isRepComplete, repEdge, applyGate, C3phase_100, C3form_100,
    groupA, groupB, C3engine2, defaultThresholds, hne]
  norm_num [C3form_100]

/-- C3: the code rejects every plank hold as `too_fast` instead of
completing it.  In the run where the hip angle stays in the (170°, 185°)
band from t=0.1 to t=2.3 (a 2.2 s hold, above the 1.5 s threshold) with
visibility 1 and default thresholds, the exit frame emits a
`rep_rejected("too_fast")` event — because `rep_start_time` is refreshed
to the current frame time whenever `_rep_progress_flag` is clear (always,
for plank), so the acceptance gate sees a duration of 0 — and no
`rep_complete` event is emitted at any frame.  A 1.0 s hold produces no
rep event, as the claim states. -/
theorem C3_plank_hold_code_bug :
    C3run4.2 = [Event.repRejected ("too_fast"),
                Event.formWarning [("plank_hips_high")]] ∧
    C3run3.1.phase_start_time = 1/10 ∧
    ((23/10 : ℚ) - 1/10 > defaultThresholds .plank_hold_time) ∧
    (C3run1.2 ++ C3run2.2 ++ C3run3.2 ++ C3run4.2).filter isRepCompleteEvent = [] ∧
    C3short.2 = [Event.formWarning [("plank_hips_high")]] := by
  refine ⟨C3run4_eval, ?_, by norm_num [defaultThresholds], ?_, C3short_eval⟩
  · rw [C3run3_eval]
    rfl
  · rw [C3run4_eval, show C3run1.2 = [Event.formWarning [("plank_hips_high")]] by
      rw [C3run1_eval], show C3run2.2 = [] by rw [C3run2_eval],
      show C3run3.2 = [] by rw [C3run3_eval]]
    simp [isRepCompleteEvent]

/-- A fully visible keypoint at a normalised position. -/
def gKP (x y : ℚ) : KP := ⟨x, y, 1⟩

/-- A motionless, fully visible T-pose sample containing every landmark
the calibrator reads. -/
def goodSample : Sample :=
  [(("left_shoulder"), gKP (3/10) (2/10)), (("right_shoulder"), gKP (7/10) (2/10)),
   (("left_hip"), gKP (35/100) (5/10)), (("right_hip"), gKP (65/100) (5/10)),
   (("left_knee"), gKP (35/100) (7/10)), (("right_knee"), gKP (65/100) (7/10)),
   (("left_wrist"), gKP (1/10) (2/10)), (("right_wrist"), gKP (9/10) (2/10)),
   (("left_ankle"), gKP (35/100) (9/10)), (("right_ankle"), gKP (65/100) (9/10))]

/-- A 1-second, 10 Hz calibration config (target: 10 samples). -/
def C6cfg : CalibConfig := ⟨1, 10, 1/50, 7/10⟩

/-- C6 run: five good sampling iterations, then `cancel()` is called; one
further good tick follows the cancellation. -/
def C6ticks : List Tick :=
  [⟨false, 0, true, some goodSample⟩,
   ⟨false, 1/10, true, some goodSample⟩,
   ⟨false, 2/10, true, some goodSample⟩,
   ⟨false, 3/10, true, some goodSample⟩,
   ⟨false, 4/10, true, some goodSample⟩,
   ⟨true, 5/10, true, some goodSample⟩,
   ⟨false, 6/10, true, some goodSample⟩]

theorem C6vis : checkVisibility C6cfg goodSample = true := by
  simp [checkVisibility, requiredLandmarks, lookupKP, goodSample, C6cfg, gKP]
  norm_num

theorem C6collect_eval :
    collectSamples C6cfg 10 C6ticks [] true =
      [goodSample, goodSample, goodSample, goodSample, goodSample] := by
  have hrate : C6cfg.sample_rate_hz = 10 := rfl
  norm_num [collectSamples, C6ticks, C6vis, hrate]

set_option maxHeartbeats 2000000 in
theorem C6stab : stabilityOf stdIfPos
    [goodSample, goodSample, goodSample, goodSample, goodSample] = 0 := by
  simp [stabilityOf, stabilityLandmarks, lookupKP, goodSample, gKP]
  norm_num [stdIfPos, listVariance]

theorem C6ratio : ratiosExist
    [goodSample, goodSample, goodSample, goodSample, goodSample] = true := by
  simp [ratiosExist, ratioOk, ratioLandmarks, lookupKP, goodSample]

/-- C6: cancellation stops sample collection at the next loop iteration
(only the 5 pre-cancel samples are collected out of a 10-sample target;
the post-cancel tick contributes nothing), but the run still yields the
terminal `success` result: the post-collection checks run regardless of
cancellation, the 5 collected samples meet the 50 % threshold, the
motionless samples give stability 0 and computable ratios.  The claim says
a cancelled run never yields a success terminal result. -/
theorem C6_cancel_success_code_bug :
    collectSamples C6cfg 10 C6ticks [] true =
      [goodSample, goodSample, goodSample, goodSample, goodSample] ∧
    C6ticks.any (fun tk => tk.cancel) = true ∧
    (5 : ℕ) < totalSamples C6cfg ∧
    streamRun stdIfPos C6cfg C6ticks = .success := by
  have htot : totalSamples C6cfg = 10 := by
    have hfloor : (⌊C6cfg.duration_seconds * C6cfg.sample_rate_hz⌋ : ℤ) = 10 := by
      norm_num [C6cfg]
    rw [totalSamples, hfloor]
    rfl
  refine ⟨C6collect_eval, by simp [C6ticks], by rw [htot]; norm_num, ?_⟩
  unfold streamRun
  rw [htot, C6collect_eval]
  norm_num [streamDecision, C6stab, C6ratio, C6cfg]

/-- C7 (amended): the streaming calibration path fails with
"not enough data" exactly when the accepted samples are below 50 % of the
target (otherwise it proceeds to the stability check), while the
simplified `calibrate` path fails for insufficient samples exactly when
they are below 60 % of the target. -/
theorem C7_sample_threshold_amended (std : List ℚ → ℚ) (cfg : CalibConfig)
    (samples : List Sample) (total : ℕ) :
    (streamDecision std cfg samples total = .notEnoughData ↔
      (samples.length : ℚ) < (total : ℚ) * (1/2)) ∧
    (¬ ((samples.length : ℚ) < (total : ℚ) * (1/2)) →
      (streamDecision std cfg samples total = .unstable ↔
        stabilityOf std samples > cfg.stability_threshold * (5/2))) ∧
    (calibrateDecision samples total = .notEnoughData ↔
      (samples.length : ℚ) < (total : ℚ) * (3/5)) := by
  refine ⟨?_, ?_, ?_⟩
  · unfold streamDecision
    split_ifs <;> simp_all
  · intro hn
    unfold streamDecision
    split_ifs <;> simp_all
  · unfold calibrateDecision
    split_ifs <;> simp_all

/-- C7 counterexample: a `calibrate` run that accepted exactly 50 % of its
10-sample target (not below 50 %) still terminates with the
insufficient-samples failure, because that path uses a 60 % threshold. -/
theorem C7_fifty_percent_counterexample :
    calibrateDecision [goodSample, goodSample, goodSample, goodSample, goodSample]
      10 = .notEnoughData ∧
    ¬ ((([goodSample, goodSample, goodSample, goodSample, goodSample] :
        List Sample).length : ℚ) < (10 : ℚ) * (1/2)) := by
  constructor
  · norm_num [calibrateDecision]
  · norm_num

/-- C7 witness: the amended theorem's stability clause applied to a
5-of-10 streaming run. -/
theorem C7_sample_threshold_amended_witness :
    (¬ ((([goodSample, goodSample, goodSample, goodSample, goodSample] :
        List Sample).length : ℚ) < (10 : ℚ) * (1/2))) ∧
    (streamDecision stdIfPos C6cfg
        [goodSample, goodSample, goodSample, goodSample, goodSample] 10 = .unstable ↔
      stabilityOf stdIfPos [goodSample, goodSample, goodSample, goodSample, goodSample] >
        C6cfg.stability_threshold * (5/2)) :=
  ⟨by norm_num,
   (C7_sample_threshold_amended stdIfPos C6cfg
     [goodSample, goodSample, goodSample, goodSample, goodSample] 10).2.1
     (by norm_num)⟩

end CoachSportif
